import Mathlib

/-!
Verification of the playback-polling and lyric-synchronization engine of the
golyrics terminal dashboard (src/main.go).

Strings are modelled as lists of characters (Go strings are byte/rune
sequences; all behaviour relevant here is character-wise).  Effectful calls
are modelled by passing their observable results into the functions that
consume them: the tick event carries the raw output of the external
media-control utility (or nothing, when the invocation itself fails), and a
fetch completion carries the text payload of the finished fetch.  The
bubbletea command value returned by Update is modelled as the list of
atomic commands it batches.
-/

abbrev Str := List Char

deriving instance DecidableEq for Except

/-- The character class trimmed by Go strings.TrimSpace (unicode.IsSpace):
the Latin-1 white space characters plus the Unicode White_Space code
points above U+00FF. -/
def isSpaceGo (c : Char) : Bool :=
  c == ' ' || c == '\t' || c == '\n' || c == '\x0b' || c == '\x0c' || c == '\r' ||
  c == '\x85' || c == '\xa0' || c == '\u1680' ||
  (0x2000 ≤ c.toNat && c.toNat ≤ 0x200a) ||
  c == '\u2028' || c == '\u2029' || c == '\u202F' || c == '\u205F' || c == '\u3000'

/-- Go strings.TrimSpace: drop white space from both ends. -/
def trimSpace (s : Str) : Str :=
  (((s.dropWhile isSpaceGo).reverse).dropWhile isSpaceGo).reverse

/-- Go strings.Split with a single-character separator: cutting a string at
every occurrence of the separator yields one more field than separators
(never zero fields). -/
def splitOnChar (sep : Char) : Str → List Str
  | [] => [[]]
  | c :: rest =>
    if c = sep then [] :: splitOnChar sep rest
    else
      match splitOnChar sep rest with
      | [] => [[c]]
      | f :: fs => (c :: f) :: fs

/-- The three error values produced on the probe path of src/main.go
(lines 53-65): failure to run the utility, empty output, and output that
does not split into exactly three fields. -/
inductive ProbeError
  | cantGetMetadata
  | noSongPlaying
  | unexpectedFormat
deriving DecidableEq, Repr

/-- SongData from src/main.go lines 27-32. -/
structure SongData where
  Status : Str
  Title : Str
  Artist : Str
  Lyrics : Str
deriving DecidableEq, Repr

/-- The bubbletea model from src/main.go lines 34-42. -/
structure Model where
  songData : SongData
  color : Str
  width : Int
  height : Int
  lastError : Option ProbeError
  lastSong : Str
  fetchingLyrics : Bool
deriving DecidableEq, Repr

/-- Parsing stage of getSongInfo (src/main.go lines 57-71), applied to the
raw stdout of the media-control invocation: trim the output, report an
empty result, split on the pipe character, require exactly three fields,
and trim each field. -/
def getSongInfo (raw : Str) : Except ProbeError SongData :=
  if trimSpace raw = [] then .error .noSongPlaying
  else
    match splitOnChar '|' (trimSpace raw) with
    | [t, a, s] =>
        .ok { Status := trimSpace s, Title := trimSpace t,
              Artist := trimSpace a, Lyrics := [] }
    | _ => .error .unexpectedFormat

/-- getSongInfo including the invocation step (src/main.go lines 50-55):
`none` models cmd.Run failing, in which case the metadata error is
returned before any output is inspected. -/
def getSongInfoRun : Option Str → Except ProbeError SongData
  | none => .error .cantGetMetadata
  | some out => getSongInfo out

/-- The query string built at both fetch call sites (src/main.go lines 154
and 170): artist, a single space, title. -/
def mkSong (artist title : Str) : Str := artist ++ [' '] ++ title

/-- Go strings.ReplaceAll with a single-character pattern (used at
src/main.go lines 75, 124 and 125): every occurrence of the character is
replaced by the replacement string. -/
def replaceChar (old : Char) (rep : Str) : Str → Str
  | [] => []
  | c :: rest => (if c = old then rep else [c]) ++ replaceChar old rep rest

/-- Go strings.ReplaceAll applied to the pattern of three newlines with
replacement two newlines (src/main.go line 126): the scan is left to
right and non-overlapping, so after a replacement it resumes after the
two emitted newlines. -/
def collapse3 : Str → Str
  | [] => []
  | [c] => [c]
  | [c, d] => [c, d]
  | c :: d :: e :: rest =>
    if c = '\n' ∧ d = '\n' ∧ e = '\n' then '\n' :: '\n' :: collapse3 rest
    else c :: collapse3 (d :: e :: rest)

/-- The lyric clean-up stage of fetchLyrics (src/main.go lines 124-126):
newline before every opening bracket, newline after every closing
bracket, then one ReplaceAll pass of three newlines to two. -/
def cleanLyrics (raw : Str) : Str :=
  collapse3 (replaceChar ']' (']' :: ['\n']) (replaceChar '[' ('\n' :: ['[']) raw))

/-- The search-stage URL of fetchLyrics (src/main.go line 75): the fixed
endpoint followed by the query with every space replaced by the three
characters percent two zero. -/
def searchURL (song : Str) : Str :=
  String.toList "https://genius.com/search?q=" ++
    replaceChar ' ' (String.toList "%20") song

/-- The events consumed by Update (src/main.go lines 44-45 and 137-192).
The lyricsMsg of the source (line 45) is a bare string: it does not carry
the track the fetch was for.  The forTrack argument here is ghost data
recording that track so that claims about stale completions can be
stated; Update ignores it, exactly as the source has nothing to inspect. -/
inductive Msg
  | keyMsg (k : Str)
  | windowSizeMsg (w h : Int)
  | lyricsMsg (forTrack : Str) (payload : Str)
  | tickMsg (probeOut : Option Str)

/-- The atomic bubbletea commands Update can return: quit, scheduling the
next tick, and launching an asynchronous fetch for a query string.  A nil
command is the empty list and tea.Batch is list concatenation. -/
inductive CmdAtom
  | quit
  | tick
  | fetch (song : Str)
deriving DecidableEq, Repr

/-- The fetch targets contained in a returned command. -/
def fetches (cmds : List CmdAtom) : List Str :=
  cmds.filterMap fun c =>
    match c with
    | CmdAtom.fetch s => some s
    | _ => none

/-- Update from src/main.go lines 137-192, one branch per source case.
The p, n and b keys invoke the external player control synchronously and
return no command; that side effect is outside the engine state and is
not modelled.  In the tick case the probe runs first; on success with a
song different from lastSong and no fetch in flight the handler returns
early with a tick and a fetch command, otherwise it falls through to the
status/lastError assignments and returns only the next tick. -/
def Update (m : Model) (msg : Msg) : Model × List CmdAtom :=
  match msg with
  | .keyMsg k =>
      if k = String.toList "q" then (m, [CmdAtom.quit])
      else if k = String.toList "p" then (m, [])
      else if k = String.toList "n" then (m, [])
      else if k = String.toList "b" then (m, [])
      else if k = String.toList "r" then
        if m.songData.Title ≠ [] ∧ m.songData.Artist ≠ [] then
          ({ m with fetchingLyrics := true },
           [CmdAtom.fetch (mkSong m.songData.Artist m.songData.Title)])
        else (m, [])
      else (m, [])
  | .windowSizeMsg w h => ({ m with width := w, height := h }, [])
  | .lyricsMsg _forTrack payload =>
      ({ m with fetchingLyrics := false,
                songData := { m.songData with Lyrics := payload } }, [])
  | .tickMsg probeOut =>
      match getSongInfoRun probeOut with
      | .error e => ({ m with lastError := some e }, [CmdAtom.tick])
      | .ok data =>
          if mkSong data.Artist data.Title ≠ m.lastSong ∧ m.fetchingLyrics = false then
            ({ m with lastSong := mkSong data.Artist data.Title,
                      fetchingLyrics := true, songData := data },
             [CmdAtom.tick, CmdAtom.fetch (mkSong data.Artist data.Title)])
          else
            ({ m with songData := { m.songData with Status := data.Status },
                      lastError := none }, [CmdAtom.tick])

/-- The model built in main (src/main.go lines 266-268): only the color is
set, every other field is the Go zero value. -/
def initialModel (colorArg : Str) : Model :=
  { songData := { Status := [], Title := [], Artist := [], Lyrics := [] },
    color := colorArg, width := 0, height := 0,
    lastError := none, lastSong := [], fetchingLyrics := false }

/-- Whether pat occurs at the head of s. -/
def startsWith : Str → Str → Bool
  | [], _ => true
  | _ :: _, [] => false
  | p :: ps, c :: cs => if p = c then startsWith ps cs else false

/-- Whether pat occurs contiguously anywhere in s. -/
def occursIn (pat : Str) : Str → Bool
  | [] => startsWith pat []
  | c :: rest => startsWith pat (c :: rest) || occursIn pat rest

/-- Three consecutive newlines: the collapse pattern. -/
def nl3 : Str := ['\n', '\n', '\n']

/-- Four consecutive newlines: witnesses a newline run longer than the
collapse pattern. -/
def nl4 : Str := ['\n', '\n', '\n', '\n']

/-! Helper lemmas about the text-processing functions. -/

theorem occursIn_cons_false {pat : Str} {c : Char} {s : Str}
    (h : occursIn pat (c :: s) = false) : occursIn pat s = false := by
  simp only [occursIn, Bool.or_eq_false_iff] at h
  exact h.2

theorem collapse3_cons (c : Char) (s : Str) : ∃ t, collapse3 (c :: s) = c :: t := by
  match s with
  | [] => exact ⟨[], rfl⟩
  | [d] => exact ⟨[d], rfl⟩
  | d :: e :: r =>
    by_cases h : c = '\n' ∧ d = '\n' ∧ e = '\n'
    · obtain ⟨hc, hd, he⟩ := h
      subst hc; subst hd; subst he
      exact ⟨'\n' :: collapse3 r, by simp [collapse3]⟩
    · exact ⟨collapse3 (d :: e :: r), by simp [collapse3, h]⟩

theorem collapse3_id (s : Str) (h : occursIn nl3 s = false) : collapse3 s = s := by
  match s with
  | [] => rfl
  | [c] => rfl
  | [c, d] => rfl
  | c :: d :: e :: r =>
    by_cases hb : c = '\n' ∧ d = '\n' ∧ e = '\n'
    · exfalso
      obtain ⟨hc, hd, he⟩ := hb
      subst hc; subst hd; subst he
      simp [occursIn, startsWith, nl3] at h
    · have hr : occursIn nl3 (d :: e :: r) = false := occursIn_cons_false h
      simp [collapse3, hb]
      exact collapse3_id (d :: e :: r) hr

theorem startsWith_cons_false {c : Char} {p s : Str}
    (h : startsWith [c] s = false) : startsWith (c :: p) s = false := by
  match s with
  | [] => rfl
  | a :: t =>
    by_cases hca : c = a
    · exfalso
      simp [startsWith, hca] at h
    · simp [startsWith, hca]

theorem collapse3_no_triple (s : Str) (h : occursIn nl4 s = false) :
    occursIn nl3 (collapse3 s) = false := by
  match s with
  | [] => rfl
  | [c] => simp [collapse3, occursIn, startsWith, nl3]
  | [c, d] => simp [collapse3, occursIn, startsWith, nl3]
  | c :: d :: e :: r =>
    have h1 : occursIn nl4 (d :: e :: r) = false := occursIn_cons_false h
    have h2 : occursIn nl4 (e :: r) = false := occursIn_cons_false h1
    have h3 : occursIn nl4 r = false := occursIn_cons_false h2
    have hsw : startsWith nl4 (c :: d :: e :: r) = false := by
      simp only [occursIn, Bool.or_eq_false_iff] at h
      exact h.1
    by_cases hb : c = '\n' ∧ d = '\n' ∧ e = '\n'
    · obtain ⟨hc, hd, he⟩ := hb
      subst hc; subst hd; subst he
      have hr0 : startsWith ['\n'] r = false := by
        simpa [nl4, startsWith] using hsw
      have ih := collapse3_no_triple r h3
      have hcol : collapse3 ('\n' :: '\n' :: '\n' :: r) = '\n' :: '\n' :: collapse3 r := by
        simp [collapse3]
      rw [hcol]
      have hX : startsWith ['\n'] (collapse3 r) = false := by
        match r, hr0 with
        | [], _ => rfl
        | r0 :: r2, hr0 =>
          obtain ⟨t, ht⟩ := collapse3_cons r0 r2
          rw [ht]
          simpa [startsWith] using hr0
      simp only [occursIn, Bool.or_eq_false_iff]
      refine ⟨?_, ?_, ?_⟩
      · simpa [nl3, startsWith] using hX
      · have : startsWith nl3 ('\n' :: collapse3 r) = startsWith ['\n', '\n'] (collapse3 r) := by
          simp [nl3, startsWith]
        rw [this]
        exact startsWith_cons_false hX
      · exact ih
    · have hcol : collapse3 (c :: d :: e :: r) = c :: collapse3 (d :: e :: r) := by
        simp [collapse3, hb]
      rw [hcol]
      have ih := collapse3_no_triple (d :: e :: r) h1
      simp only [occursIn, Bool.or_eq_false_iff]
      refine ⟨?_, ?_⟩
      · by_cases hc : c = '\n'
        · subst hc
          by_cases hd : d = '\n'
          · subst hd
            have he : e ≠ '\n' := fun hx => hb ⟨rfl, rfl, hx⟩
            have hen : ¬('\n' = e) := fun hx => he hx.symm
            match r with
            | [] => simp [collapse3, startsWith, nl3, hen]
            | f :: r2 =>
              have hne : ¬('\n' = '\n' ∧ e = '\n' ∧ f = '\n') := fun hx => he hx.2.1
              have hne2 : ¬(e = '\n' ∧ f = '\n') := fun hx => he hx.1
              obtain ⟨t2, ht2⟩ := collapse3_cons e (f :: r2)
              simp [collapse3, hne, hne2, ht2, startsWith, nl3, hen]
          · obtain ⟨t, ht⟩ := collapse3_cons d (e :: r)
            rw [ht]
            have hdn : ¬('\n' = d) := fun hx => hd hx.symm
            simp [startsWith, nl3, hdn]
        · obtain ⟨t, ht⟩ := collapse3_cons d (e :: r)
          rw [ht]
          have hcn : ¬('\n' = c) := fun hx => hc hx.symm
          simp [startsWith, nl3, hcn]
      · exact ih


theorem replaceChar_id (old : Char) (rep : Str) (s : Str) (h : old ∉ s) :
    replaceChar old rep s = s := by
  induction s with
  | nil => rfl
  | cons c rest ih =>
    have hc : ¬(c = old) := by
      intro he
      exact h (by rw [← he]; exact List.mem_cons_self c rest)
    simp [replaceChar, hc]
    exact ih (fun hm => h (List.mem_cons_of_mem c hm))

theorem cleanLyrics_id (x : Str) (h1 : '[' ∉ x) (h2 : ']' ∉ x)
    (h3 : occursIn nl3 x = false) : cleanLyrics x = x := by
  unfold cleanLyrics
  rw [replaceChar_id _ _ _ h1, replaceChar_id _ _ _ h2, collapse3_id _ h3]

/-- Unreserved URL characters (RFC 3986): letters, digits, hyphen, dot,
underscore, tilde.  Part of the specification-side model of URL encoding. -/
def isUnreserved (c : Char) : Bool :=
  c.isAlphanum || c == '-' || c == '.' || c == '_' || c == '~'

/-- Hexadecimal digit character, uppercase. -/
def hexDigit (n : Nat) : Char :=
  if n < 10 then Char.ofNat (48 + n) else Char.ofNat (55 + n)

/-- Percent-encoding of one character code point. -/
def percentEncodeChar (c : Char) : Str :=
  ['%', hexDigit (c.toNat / 16), hexDigit (c.toNat % 16)]

/-- Specification-side definition of URL encoding, following the spec
words that the search query is URL-encoded before being appended to the
search endpoint (spec sections 4.2 and 6): percent-encode every character
that is not unreserved.  Stated for single-byte code points, which is the
only range the claims exercise; per-byte UTF-8 encoding of larger code
points is not modelled. -/
def urlEncodeSpec : Str → Str
  | [] => []
  | c :: rest =>
    (if isUnreserved c then [c] else percentEncodeChar c) ++ urlEncodeSpec rest

theorem replaceSpace_eq_urlEncode (s : Str)
    (h : ∀ c ∈ s, isUnreserved c = true ∨ c = ' ') :
    replaceChar ' ' (String.toList "%20") s = urlEncodeSpec s := by
  induction s with
  | nil => rfl
  | cons c rest ih =>
    have hrest : ∀ d ∈ rest, isUnreserved d = true ∨ d = ' ' :=
      fun d hd => h d (List.mem_cons_of_mem c hd)
    rcases h c (List.mem_cons_self c rest) with hu | hs
    · have hne : ¬(c = ' ') := by
        intro he
        subst he
        exact absurd hu (by decide)
      simp [replaceChar, urlEncodeSpec, hne, hu]
      exact ih hrest
    · subst hs
      have hu : isUnreserved ' ' = false := by decide
      have hp : percentEncodeChar ' ' = String.toList "%20" := by decide
      simp [replaceChar, urlEncodeSpec, hu, hp]
      exact ih hrest

/-! Characterizations of the Update branches. -/

theorem Update_lyricsMsg (m : Model) (forTrack payload : Str) :
    Update m (.lyricsMsg forTrack payload) =
      ({ m with fetchingLyrics := false,
                songData := { m.songData with Lyrics := payload } }, []) := rfl

theorem Update_tick_ok (m : Model) (probeOut : Option Str) (d : SongData)
    (h : getSongInfoRun probeOut = .ok d) :
    Update m (.tickMsg probeOut) =
      if mkSong d.Artist d.Title ≠ m.lastSong ∧ m.fetchingLyrics = false then
        ({ m with lastSong := mkSong d.Artist d.Title,
                  fetchingLyrics := true, songData := d },
         [CmdAtom.tick, CmdAtom.fetch (mkSong d.Artist d.Title)])
      else
        ({ m with songData := { m.songData with Status := d.Status },
                  lastError := none }, [CmdAtom.tick]) := by
  simp only [Update, h]

theorem Update_tick_err (m : Model) (probeOut : Option Str) (e : ProbeError)
    (h : getSongInfoRun probeOut = .error e) :
    Update m (.tickMsg probeOut) =
      ({ m with lastError := some e }, [CmdAtom.tick]) := by
  simp only [Update, h]

theorem Update_key_r (m : Model) :
    Update m (.keyMsg (String.toList "r")) =
      if m.songData.Title ≠ [] ∧ m.songData.Artist ≠ [] then
        ({ m with fetchingLyrics := true },
         [CmdAtom.fetch (mkSong m.songData.Artist m.songData.Title)])
      else (m, []) := rfl


/-! Claim C2: idempotence of the lyric normalization. -/

/-- Claim C2, counterexample: normalization is not idempotent.  On the
spec's own example section marker a second application inserts a second
newline before the opening bracket and after the closing bracket, and
the collapse rule does not absorb the duplication. -/
theorem c2_counterexample :
    cleanLyrics (cleanLyrics (String.toList "[Chorus]")) ≠
      cleanLyrics (String.toList "[Chorus]") := by decide

/-- Claim C2 (amended): on inputs containing no opening bracket, no
closing bracket, and no run of three consecutive newlines, normalization
is the identity and therefore idempotent. -/
theorem c2_normalize_idempotent_on_plain (x : Str)
    (h1 : '[' ∉ x) (h2 : ']' ∉ x) (h3 : occursIn nl3 x = false) :
    cleanLyrics x = x ∧ cleanLyrics (cleanLyrics x) = cleanLyrics x := by
  have hx := cleanLyrics_id x h1 h2 h3
  refine ⟨hx, ?_⟩
  rw [hx]
  exact hx

theorem c2_witness :
    cleanLyrics (String.toList "la la\nla") = String.toList "la la\nla" ∧
    cleanLyrics (cleanLyrics (String.toList "la la\nla")) =
      cleanLyrics (String.toList "la la\nla") :=
  c2_normalize_idempotent_on_plain _ (by decide) (by decide) (by decide)

/-! Claim C4: the collapse stage and newline runs. -/

/-- Claim C4, counterexample: a pre-collapse run of four newlines is not
reduced to two; the single non-overlapping ReplaceAll pass leaves a run
of three newlines in the output. -/
theorem c4_counterexample :
    cleanLyrics (String.toList "\n\n\n\n") = String.toList "\n\n\n" ∧
    occursIn nl3 (cleanLyrics (String.toList "\n\n\n\n")) = true := by decide

/-- Claim C4 (amended): when every newline run of the pre-collapse text
(the input after the two bracket rules) has length at most three, the
normalized output contains no run of three or more consecutive
newlines. -/
theorem c4_no_triple_when_runs_short (x : Str)
    (h : occursIn nl4 (replaceChar ']' (']' :: ['\n'])
          (replaceChar '[' ('\n' :: ['[']) x)) = false) :
    occursIn nl3 (cleanLyrics x) = false :=
  collapse3_no_triple _ h

theorem c4_witness :
    occursIn nl3 (cleanLyrics (String.toList "a\n\n\nb")) = false :=
  c4_no_triple_when_runs_short _ (by decide)

/-! Claim C8: the search-stage URL. -/

/-- Claim C8, counterexample: the query is not URL-encoded before being
appended to the search endpoint; only spaces are rewritten.  For the
artist containing an ampersand the code's URL differs from the endpoint
followed by the percent-encoded query. -/
theorem c8_counterexample :
    searchURL (mkSong (String.toList "a&b") (String.toList "c")) ≠
      String.toList "https://genius.com/search?q=" ++
        urlEncodeSpec (mkSong (String.toList "a&b") (String.toList "c")) := by
  decide

/-- Claim C8 (amended): the search URL is the endpoint followed by the
query artist, single space, title, with each space replaced by the
percent-two-zero triple and no other character encoded; this coincides
with URL-encoding exactly when every other character of the query is
unreserved. -/
theorem c8_url_spaces_only (artist title : Str)
    (h : ∀ c ∈ mkSong artist title, isUnreserved c = true ∨ c = ' ') :
    searchURL (mkSong artist title) =
      String.toList "https://genius.com/search?q=" ++
        urlEncodeSpec (mkSong artist title) := by
  unfold searchURL
  rw [replaceSpace_eq_urlEncode _ h]

theorem c8_witness :
    searchURL (mkSong (String.toList "ArtistX") (String.toList "SongA")) =
      String.toList "https://genius.com/search?q=" ++
        urlEncodeSpec (mkSong (String.toList "ArtistX") (String.toList "SongA")) :=
  c8_url_spaces_only _ _ (by decide)

/-! Claim C9: the probe's output handling. -/

/-- Claim C9 (confirmed): on any raw utility output, the probe reports no
active session exactly when the trimmed output is empty, reports
malformed output exactly when the non-empty trimmed output does not
split on the pipe into exactly three fields, never reports the
invocation error, and otherwise succeeds with title, artist and status
each whitespace-trimmed (the fields arrive in the order title, artist,
status). -/
theorem c9_probe_parse (raw : Str) :
    (getSongInfo raw = .error .noSongPlaying ↔ trimSpace raw = [])
    ∧ (getSongInfo raw = .error .unexpectedFormat ↔
        (trimSpace raw ≠ [] ∧ (splitOnChar '|' (trimSpace raw)).length ≠ 3))
    ∧ getSongInfo raw ≠ .error .cantGetMetadata
    ∧ (∀ t a s, splitOnChar '|' (trimSpace raw) = [t, a, s] →
        getSongInfo raw = .ok { Status := trimSpace s, Title := trimSpace t,
                                Artist := trimSpace a, Lyrics := [] }) := by
  by_cases he : trimSpace raw = []
  · refine ⟨by simp [getSongInfo, he], by simp [getSongInfo, he],
      by simp [getSongInfo, he], ?_⟩
    intro t a s hs
    rw [he] at hs
    simp [splitOnChar] at hs
  · rcases hs : splitOnChar '|' (trimSpace raw) with _ | ⟨t0, _ | ⟨a0, _ | ⟨s0, _ | ⟨d0, rest⟩⟩⟩⟩
    · refine ⟨by simp [getSongInfo, he, hs], by simp [getSongInfo, he, hs],
        by simp [getSongInfo, he, hs], ?_⟩
      intro t a s hts
      simp at hts
    · refine ⟨by simp [getSongInfo, he, hs], by simp [getSongInfo, he, hs],
        by simp [getSongInfo, he, hs], ?_⟩
      intro t a s hts
      simp at hts
    · refine ⟨by simp [getSongInfo, he, hs], by simp [getSongInfo, he, hs],
        by simp [getSongInfo, he, hs], ?_⟩
      intro t a s hts
      simp at hts
    · refine ⟨by simp [getSongInfo, he, hs], by simp [getSongInfo, he, hs],
        by simp [getSongInfo, he, hs], ?_⟩
      intro t a s hts
      simp only [List.cons.injEq, and_true] at hts
      obtain ⟨h1, h2, h3⟩ := hts
      subst h1
      subst h2
      subst h3
      simp [getSongInfo, he, hs]
    · refine ⟨by simp [getSongInfo, he, hs], ?_,
        by simp [getSongInfo, he, hs], ?_⟩
      · simp [getSongInfo, he, hs]
      · intro t a s hts
        simp at hts

theorem c9_witness :
    getSongInfo (String.toList "Song A |Artist X| Playing") =
      .ok { Status := trimSpace (String.toList " Playing"),
            Title := trimSpace (String.toList "Song A "),
            Artist := trimSpace (String.toList "Artist X"),
            Lyrics := [] } :=
  (c9_probe_parse _).2.2.2 _ _ _ (by decide)


/-! Concrete fixture states used by counterexamples and witnesses. -/

/-- A state with a fetch in flight for the song of artist X. -/
def busyModel : Model :=
  { songData := { Status := String.toList "Playing",
                  Title := String.toList "Song A",
                  Artist := String.toList "Artist X",
                  Lyrics := String.toList "OLD" },
    color := [], width := 0, height := 0, lastError := none,
    lastSong := String.toList "Artist X Song A", fetchingLyrics := true }

/-- A state with a recorded probe error and no known song. -/
def errModel : Model :=
  { songData := { Status := [], Title := [], Artist := [], Lyrics := [] },
    color := [], width := 0, height := 0,
    lastError := some ProbeError.cantGetMetadata,
    lastSong := [], fetchingLyrics := false }

/-! Claim C1: stale fetch completions. -/

/-- Claim C1, counterexample: the source completion message carries only
the text (src/main.go line 45), and the handler stores it
unconditionally (lines 162-164); a completion whose target track
differs from the engine's current song still changes the lyrics
field. -/
theorem c1_counterexample :
    String.toList "Artist Y Song B" ≠ busyModel.lastSong ∧
    (Update busyModel (Msg.lyricsMsg (String.toList "Artist Y Song B")
        (String.toList "NEW"))).1.songData.Lyrics ≠ busyModel.songData.Lyrics := by
  decide

/-- Claim C1 (amended): handling a fetch completion always stores the
payload in the lyrics field and clears the in-flight flag, for every
target track; there is no stale-result suppression. -/
theorem c1_completion_overwrites (m : Model) (forTrack payload : Str) :
    Update m (Msg.lyricsMsg forTrack payload) =
      ({ m with fetchingLyrics := false,
                songData := { m.songData with Lyrics := payload } }, []) := rfl

/-! Claim C3: single fetch in flight. -/

/-- Claim C3, counterexample: in a reachable state (initial state, then
one successful tick that starts a fetch and leaves it in flight), the
manual-refresh key starts a second fetch although one is in flight,
because the r-key handler checks only for a non-empty title and
artist. -/
theorem c3_counterexample :
    (Update (initialModel []) (Msg.tickMsg (some
        (String.toList "Song A|Artist X|Playing")))).1.fetchingLyrics = true ∧
    fetches (Update (Update (initialModel []) (Msg.tickMsg (some
        (String.toList "Song A|Artist X|Playing")))).1
        (Msg.keyMsg (String.toList "r"))).2 =
      [String.toList "Artist X Song A"] := by decide

/-- Claim C3 (amended): the tick handler starts a fetch only when no
fetch is in flight; the manual-refresh handler guards only on a
non-empty title and artist and starts a fetch even while one is already
in flight. -/
theorem c3_tick_guard (m : Model) (probeOut : Option Str) :
    (m.fetchingLyrics = true → fetches (Update m (Msg.tickMsg probeOut)).2 = [])
    ∧ (m.songData.Title ≠ [] → m.songData.Artist ≠ [] →
        fetches (Update m (Msg.keyMsg (String.toList "r"))).2 =
          [mkSong m.songData.Artist m.songData.Title]) := by
  constructor
  · intro hf
    cases hp : getSongInfoRun probeOut with
    | error e =>
      rw [Update_tick_err m probeOut e hp]
      rfl
    | ok d =>
      rw [Update_tick_ok m probeOut d hp]
      rw [if_neg (fun hc => by rw [hf] at hc; exact absurd hc.2 (by decide))]
      rfl
  · intro ht ha
    rw [Update_key_r m, if_pos ⟨ht, ha⟩]
    rfl

theorem c3_witness :
    fetches (Update busyModel (Msg.tickMsg (some
      (String.toList "Song B|Artist Y|Playing")))).2 = [] ∧
    fetches (Update busyModel (Msg.keyMsg (String.toList "r"))).2 =
      [mkSong busyModel.songData.Artist busyModel.songData.Title] :=
  ⟨(c3_tick_guard busyModel (some (String.toList "Song B|Artist Y|Playing"))).1 rfl,
   (c3_tick_guard busyModel none).2 (by decide) (by decide)⟩

/-! Claim C5: tick with a new track while a fetch is in flight. -/

/-- Claim C5, counterexample: with a fetch in flight, a successful tick
reporting a track different from the current one does not update the
current track; the early-return branch is not taken and the
de-duplication key keeps its old value instead of the new identity. -/
theorem c5_counterexample :
    getSongInfoRun (some (String.toList "Song B|Artist Y|Playing")) =
      .ok { Status := String.toList "Playing", Title := String.toList "Song B",
            Artist := String.toList "Artist Y", Lyrics := [] } ∧
    busyModel.fetchingLyrics = true ∧
    mkSong (String.toList "Artist Y") (String.toList "Song B") ≠ busyModel.lastSong ∧
    (Update busyModel (Msg.tickMsg (some
        (String.toList "Song B|Artist Y|Playing")))).1.lastSong ≠
      mkSong (String.toList "Artist Y") (String.toList "Song B") := by decide

/-- Claim C5 (amended): with a fetch in flight, a successful tick whose
track differs from the current one leaves the current track unchanged
(the de-duplication key and the displayed title and artist keep their
values), updates only the displayed status and clears the probe error,
and starts no second fetch. -/
theorem c5_inflight_keeps_track (m : Model) (probeOut : Option Str) (d : SongData)
    (hf : m.fetchingLyrics = true)
    (hne : mkSong d.Artist d.Title ≠ m.lastSong)
    (hp : getSongInfoRun probeOut = .ok d) :
    Update m (Msg.tickMsg probeOut) =
      ({ m with songData := { m.songData with Status := d.Status },
                lastError := none }, [CmdAtom.tick]) := by
  rw [Update_tick_ok m probeOut d hp]
  rw [if_neg (fun hc => by rw [hf] at hc; exact absurd hc.2 (by decide))]

theorem c5_witness :
    Update busyModel (Msg.tickMsg (some (String.toList "Song B|Artist Y|Playing"))) =
      ({ busyModel with
           songData := { busyModel.songData with Status := String.toList "Playing" },
           lastError := none }, [CmdAtom.tick]) :=
  c5_inflight_keeps_track busyModel _
    { Status := String.toList "Playing", Title := String.toList "Song B",
      Artist := String.toList "Artist Y", Lyrics := [] }
    rfl (by decide) (by decide)

/-! Claim C6: probe errors and the next successful poll. -/

/-- Claim C6, counterexample: a successful tick that takes the
fetch-trigger branch (new song, no fetch in flight) returns early and
leaves the previously recorded probe error in place instead of clearing
it. -/
theorem c6_counterexample :
    getSongInfoRun (some (String.toList "Song A|Artist X|Playing")) =
      .ok { Status := String.toList "Playing", Title := String.toList "Song A",
            Artist := String.toList "Artist X", Lyrics := [] } ∧
    errModel.lastError = some ProbeError.cantGetMetadata ∧
    (Update errModel (Msg.tickMsg (some
        (String.toList "Song A|Artist X|Playing")))).1.lastError =
      some ProbeError.cantGetMetadata := by decide

/-- Claim C6 (amended): a successful tick clears the recorded probe
error exactly when it does not take the fetch-trigger branch; when the
probed song is new and no fetch is in flight, the handler returns early
and the previously recorded error is kept unchanged. -/
theorem c6_error_cleared_iff_no_trigger (m : Model) (probeOut : Option Str)
    (d : SongData) (hp : getSongInfoRun probeOut = .ok d) :
    ((mkSong d.Artist d.Title = m.lastSong ∨ m.fetchingLyrics = true) →
      (Update m (Msg.tickMsg probeOut)).1.lastError = none)
    ∧ ((mkSong d.Artist d.Title ≠ m.lastSong ∧ m.fetchingLyrics = false) →
      (Update m (Msg.tickMsg probeOut)).1.lastError = m.lastError) := by
  rw [Update_tick_ok m probeOut d hp]
  constructor
  · intro hcase
    rw [if_neg (fun hc => hcase.elim (fun he => hc.1 he)
      (fun hf => by rw [hf] at hc; exact absurd hc.2 (by decide)))]
  · intro hcase
    rw [if_pos hcase]

theorem c6_witness :
    (Update { errModel with lastSong := String.toList "Artist X Song A" }
       (Msg.tickMsg (some (String.toList "Song A|Artist X|Playing")))).1.lastError
      = none ∧
    (Update errModel (Msg.tickMsg (some
       (String.toList "Song A|Artist X|Playing")))).1.lastError = errModel.lastError :=
  ⟨(c6_error_cleared_iff_no_trigger _ _
      { Status := String.toList "Playing", Title := String.toList "Song A",
        Artist := String.toList "Artist X", Lyrics := [] }
      (by decide)).1 (Or.inl (by decide)),
   (c6_error_cleared_iff_no_trigger _ _
      { Status := String.toList "Playing", Title := String.toList "Song A",
        Artist := String.toList "Artist X", Lyrics := [] }
      (by decide)).2 ⟨by decide, rfl⟩⟩

/-! Claim C7: consecutive ticks with the same identity. -/

/-- Claim C7 (confirmed): across two consecutive successful ticks
reporting the same track identity, at most one fetch is started; the
second tick starts none, and it changes only the displayed status
together with clearing the probe error (the transition the claim's spec
sentence describes), every other field being unchanged. -/
theorem c7_consecutive_ticks (m : Model) (raw1 raw2 : Option Str) (d1 d2 : SongData)
    (h1 : getSongInfoRun raw1 = .ok d1) (h2 : getSongInfoRun raw2 = .ok d2)
    (ha : d1.Artist = d2.Artist) (ht : d1.Title = d2.Title) :
    fetches (Update (Update m (Msg.tickMsg raw1)).1 (Msg.tickMsg raw2)).2 = []
    ∧ (fetches (Update m (Msg.tickMsg raw1)).2).length +
        (fetches (Update (Update m (Msg.tickMsg raw1)).1 (Msg.tickMsg raw2)).2).length ≤ 1
    ∧ (Update (Update m (Msg.tickMsg raw1)).1 (Msg.tickMsg raw2)).1 =
        { (Update m (Msg.tickMsg raw1)).1 with
            songData := { (Update m (Msg.tickMsg raw1)).1.songData with
                            Status := d2.Status },
            lastError := none } := by
  have hsong : mkSong d2.Artist d2.Title = mkSong d1.Artist d1.Title := by
    rw [ha, ht]
  rw [Update_tick_ok m raw1 d1 h1]
  by_cases hc : mkSong d1.Artist d1.Title ≠ m.lastSong ∧ m.fetchingLyrics = false
  · rw [if_pos hc]
    dsimp only
    rw [Update_tick_ok _ raw2 d2 h2]
    rw [if_neg (fun hcc => Bool.noConfusion hcc.2)]
    refine ⟨rfl, by simp [fetches], rfl⟩
  · rw [if_neg hc]
    dsimp only
    rw [Update_tick_ok _ raw2 d2 h2]
    rw [if_neg (fun hcc => hc ⟨by rw [← hsong]; exact hcc.1, hcc.2⟩)]
    refine ⟨rfl, by simp [fetches], rfl⟩

theorem c7_witness :
    fetches (Update (Update (initialModel []) (Msg.tickMsg (some
      (String.toList "Song A|Artist X|Playing")))).1 (Msg.tickMsg (some
      (String.toList "Song A|Artist X|Paused")))).2 = [] :=
  (c7_consecutive_ticks (initialModel []) _ _
     { Status := String.toList "Playing", Title := String.toList "Song A",
       Artist := String.toList "Artist X", Lyrics := [] }
     { Status := String.toList "Paused", Title := String.toList "Song A",
       Artist := String.toList "Artist X", Lyrics := [] }
     (by decide) (by decide) rfl rfl).1

/-! Claim C10: a track change during an in-flight fetch is deferred. -/

/-- Claim C10 (confirmed): a tick that sees a new track while a fetch is
in flight leaves the de-duplication key unchanged and starts no fetch;
once the in-flight fetch completes, the first tick that still reports
the new track starts a fetch for it and records it as the key, so the
change is fetched later rather than permanently skipped. -/
theorem c10_deferred_fetch (m : Model) (raw1 raw2 : Option Str) (d1 d2 : SongData)
    (ghost payload : Str)
    (hf : m.fetchingLyrics = true)
    (h1 : getSongInfoRun raw1 = .ok d1)
    (hn1 : mkSong d1.Artist d1.Title ≠ m.lastSong)
    (h2 : getSongInfoRun raw2 = .ok d2)
    (hn2 : mkSong d2.Artist d2.Title ≠ m.lastSong) :
    (Update m (Msg.tickMsg raw1)).1.lastSong = m.lastSong
    ∧ fetches (Update m (Msg.tickMsg raw1)).2 = []
    ∧ fetches (Update (Update (Update m (Msg.tickMsg raw1)).1
        (Msg.lyricsMsg ghost payload)).1 (Msg.tickMsg raw2)).2 =
      [mkSong d2.Artist d2.Title]
    ∧ (Update (Update (Update m (Msg.tickMsg raw1)).1
        (Msg.lyricsMsg ghost payload)).1 (Msg.tickMsg raw2)).1.lastSong =
      mkSong d2.Artist d2.Title := by
  rw [Update_tick_ok m raw1 d1 h1]
  rw [if_neg (fun hc => by rw [hf] at hc; exact absurd hc.2 (by decide))]
  dsimp only
  rw [Update_lyricsMsg]
  dsimp only
  rw [Update_tick_ok _ raw2 d2 h2]
  rw [if_pos ⟨hn2, rfl⟩]
  refine ⟨rfl, rfl, by simp [fetches], rfl⟩

theorem c10_witness :
    fetches (Update (Update (Update busyModel (Msg.tickMsg (some
      (String.toList "Song B|Artist Y|Playing")))).1
      (Msg.lyricsMsg (String.toList "Artist X Song A") (String.toList "LYR"))).1
      (Msg.tickMsg (some (String.toList "Song B|Artist Y|Playing")))).2 =
      [mkSong (String.toList "Artist Y") (String.toList "Song B")] :=
  (c10_deferred_fetch busyModel _ _
     { Status := String.toList "Playing", Title := String.toList "Song B",
       Artist := String.toList "Artist Y", Lyrics := [] }
     { Status := String.toList "Playing", Title := String.toList "Song B",
       Artist := String.toList "Artist Y", Lyrics := [] }
     (String.toList "Artist X Song A") (String.toList "LYR")
     rfl (by decide) (by decide) (by decide) (by decide)).2.2.1
